import Mathlib

/-!
Shallow embedding of the raplay mixing core: the `VolumeIterator` gain state
machine (src/source/mod.rs), the channel and rate converters
(src/converters/channels.rs, src/converters/rate.rs), and the `Mixer`
real-time loop (src/mixer.rs), together with proofs settling the
specification's claims against these definitions.

`f32` sample and gain arithmetic is modelled over `ℚ`; Rust `as i32` casts are
modelled as truncation toward zero.  Division by zero, which yields `inf`/`NaN`
for `f32`, yields `0` in `ℚ`; every theorem below stays away from those inputs.
-/

namespace Raplay

/-- Truncation toward zero, modelling a Rust `as i32` cast (saturation at the
`i32` bounds is not modelled; all inputs of interest are far below them). -/
def i32trunc (q : ℚ) : ℤ := if 0 ≤ q then ⌊q⌋ else -⌊-q⌋

/-- `VolumeIterator` from src/source/mod.rs: constant gain, or a linear ramp
`(base + step·cur_count)·multiplier` that collapses to `Constant` when
`cur_count` reaches `target_count`. -/
inductive VolumeIterator where
  | Constant (vol : ℚ)
  | Linear (base step : ℚ) (cur_count target_count : ℤ) (multiplier : ℚ)
      (channel_count : ℕ) (cur_channel : ℕ)
  deriving DecidableEq, Repr

namespace VolumeIterator

/-- `VolumeIterator::constant`. -/
def constant (volume : ℚ) : VolumeIterator := .Constant volume

/-- `VolumeIterator::linear`: `step = (target - start) / tick_count`,
`cur_count = 0`, `target_count = tick_count.abs()`, `multiplier = 1`,
`cur_channel = 0`. -/
def linear (start target : ℚ) (tick_count : ℤ) (channels : ℕ) :
    VolumeIterator :=
  .Linear start ((target - start) / (tick_count : ℚ)) 0
    (tick_count.natAbs : ℤ) 1 channels 0

/-- `VolumeIterator::to_linear`: restart a ramp from the currently implied
gain (`base + step·cur_count·multiplier` in the `Linear` case). -/
def to_linear (v : VolumeIterator) (target : ℚ) (tick_count : ℤ)
    (channels : ℕ) : VolumeIterator :=
  match v with
  | .Constant c => linear c target tick_count channels
  | .Linear base step cur_count _ multiplier _ _ =>
      linear (base + step * (cur_count : ℚ) * multiplier) target tick_count
        channels

/-- `VolumeIterator::to_linear_time_rate`: ticks derived from a wall-clock
duration (seconds, modelled as `ℚ`) and the sample rate; a zero duration
collapses immediately to `Constant target`. -/
def to_linear_time_rate (v : VolumeIterator) (target : ℚ) (rate : ℕ)
    (duration : ℚ) (channels : ℕ) : VolumeIterator :=
  if duration = 0 then constant target
  else v.to_linear target (i32trunc ((rate : ℚ) * duration)) channels

/-- `VolumeIterator::until_target`: remaining ticks, `none` for `Constant`. -/
def until_target : VolumeIterator → Option ℕ
  | .Constant _ => none
  | .Linear _ _ cur_count target_count _ _ _ =>
      some (target_count - cur_count).natAbs

/-- `VolumeIterator::set_volume`: rewrite the implicit start (`target = false`)
or end (`target = true`) of an in-flight ramp by solving a new multiplier. -/
def set_volume (v : VolumeIterator) (volume : ℚ) (target : Bool) :
    VolumeIterator :=
  match v with
  | .Constant _ => .Constant volume
  | .Linear base step cur_count target_count _ channel_count cur_channel =>
      .Linear base step cur_count target_count
        (volume /
          (if target then base + step * (target_count : ℚ) else base))
        channel_count cur_channel

/-- `VolumeIterator::skip_vol`: advance `n` channel-slots without producing
values.  Mirrors the source exactly, including its `cur_channel >
channel_count` comparison (a strict `>`, not `>=`) and its collapse to the
value at `target_count`. -/
def skip_vol (v : VolumeIterator) (n : ℕ) : VolumeIterator :=
  match v with
  | .Constant c => .Constant c
  | .Linear base step cur_count target_count multiplier channel_count
      cur_channel =>
      let cc := cur_count + ((n / channel_count : ℕ) : ℤ)
      let ch := cur_channel + n % channel_count
      let cc2 := if channel_count < ch then cc + 1 else cc
      let ch2 := if channel_count < ch then ch - channel_count else ch
      if target_count ≤ cc2 then
        .Constant ((base + step * (target_count : ℚ)) * multiplier)
      else
        .Linear base step cc2 target_count multiplier channel_count ch2

/-- `VolumeIterator::next_vol`: emit the current gain and advance one
channel-slot; at a channel wrap advance one tick and collapse to
`Constant ret` once `cur_count` reaches `target_count`. -/
def next_vol (v : VolumeIterator) : ℚ × VolumeIterator :=
  match v with
  | .Constant vol => (vol, .Constant vol)
  | .Linear base step cur_count target_count multiplier channel_count
      cur_channel =>
      let ret := (base + step * (cur_count : ℚ)) * multiplier
      if cur_channel + 1 = channel_count then
        if target_count ≤ cur_count + 1 then (ret, .Constant ret)
        else
          (ret, .Linear base step (cur_count + 1) target_count multiplier
            channel_count 0)
      else
        (ret, .Linear base step cur_count target_count multiplier
          channel_count (cur_channel + 1))

/-- Iterate `next_vol` `n` times, discarding the emitted gains. -/
def stepN (v : VolumeIterator) : ℕ → VolumeIterator
  | 0 => v
  | n + 1 => stepN (v.next_vol).2 n

/-- The gain the iterator would emit next. -/
def curGain (v : VolumeIterator) : ℚ := (v.next_vol).1

/-- The gain emitted by the `(i+1)`-th call to `next_vol`. -/
def gainSeq (v : VolumeIterator) (i : ℕ) : ℚ := curGain (stepN v i)

end VolumeIterator

/-- Pull the next sample from a list-modelled source iterator. -/
def listNext (l : List ℚ) : Option ℚ × List ℚ :=
  match l with
  | [] => (none, [])
  | x :: xs => (some x, xs)

/-- The equilibrium (silence) value of the modelled sample format (`0` for
signed and float formats; this development models samples as `ℚ`). -/
def EQUILIBRIUM : ℚ := 0

/-- `ChannelConverter` from src/converters/channels.rs: interleaved
`source_channels → target_channels` conversion with `O(1)` state. -/
structure ChannelConverter where
  source : List ℚ
  source_channels : ℕ
  target_channels : ℕ
  index : ℕ
  deriving DecidableEq, Repr

namespace ChannelConverter

/-- `ChannelConverter::new`. -/
def new (source : List ℚ) (source_channels target_channels : ℕ) :
    ChannelConverter :=
  { source, source_channels, target_channels, index := 0 }

/-- `ChannelConverter::next` (the `Iterator` impl): when
`source_channels < target_channels`, slots past the source channels of each
frame are filled with `EQUILIBRIUM`; when greater, the extra source channels
of each frame are discarded. -/
def next (c : ChannelConverter) : Option ℚ × ChannelConverter :=
  if c.source_channels < c.target_channels then
    let (res, src) :=
      if c.source_channels ≤ c.index then (some EQUILIBRIUM, c.source)
      else listNext c.source
    (res, { c with source := src, index := (c.index + 1) % c.target_channels })
  else if c.source_channels = c.target_channels then
    let (res, src) := listNext c.source
    (res, { c with source := src })
  else
    let (res, src) := listNext c.source
    let idx := c.index + 1
    if c.target_channels ≤ idx then
      (res, { c with
        source := src.drop (c.source_channels - c.target_channels),
        index := 0 })
    else
      (res, { c with source := src, index := idx })

/-- Collect up to `n` outputs of the converter, stopping at the first
`none`. -/
def outputs (c : ChannelConverter) : ℕ → List ℚ
  | 0 => []
  | n + 1 =>
      match c.next with
      | (some x, c2) => x :: outputs c2 n
      | (none, _) => []

end ChannelConverter

/-- `Rate` from src/converters/rate.rs: linear-interpolation resampler with
two lookahead samples `a`, `b` and a fractional `index`. -/
structure Rate where
  source : List ℚ
  ratio : ℚ
  index : ℚ
  a : Option ℚ
  b : Option ℚ
  deriving DecidableEq, Repr

namespace Rate

/-- `Rate::new`: note the code computes `ratio = source_rate / target_rate`. -/
def new (source : List ℚ) (source_rate target_rate : ℕ) : Rate :=
  { source,
    ratio := (source_rate : ℚ) / (target_rate : ℚ),
    index := 0, a := none, b := none }

/-- A construction that instead follows the claim's words, `ratio =
target_rate / source_rate`, to be compared against `Rate.new`. -/
def newSpecRatio (source : List ℚ) (source_rate target_rate : ℕ) : Rate :=
  { source,
    ratio := (target_rate : ℚ) / (source_rate : ℚ),
    index := 0, a := none, b := none }

/-- The `while self.index >= 1` loop of `Rate::next`: shift `b` into `a`,
subtract `1` from `index`, pull a new `b`.  `fuel` bounds the iteration count;
`Rate.next` passes enough fuel that the loop always exits with `index < 1`,
matching the `while` semantics. -/
def shiftLoop : ℕ → Rate → Rate
  | 0, r => r
  | fuel + 1, r =>
      if 1 ≤ r.index then
        let (nb, src) := listNext r.source
        shiftLoop fuel
          { r with a := r.b, index := r.index - 1, b := nb, source := src }
      else r

/-- The interpolation step of `Rate::next` once `a` and `b` are both
present: emit `a·(1−index) + b·index`, add `ratio` to `index`, then run the
shift loop. -/
def interpStep (av bv : ℚ) (r : Rate) : Option ℚ × Rate :=
  let res := av * (1 - r.index) + bv * r.index
  let r2 := { r with index := r.index + r.ratio }
  (some res, shiftLoop (⌈r2.index⌉.toNat + 1) r2)

/-- `Rate::next` (the `Iterator` impl). -/
def next (r : Rate) : Option ℚ × Rate :=
  if r.ratio = 1 then
    let (res, src) := listNext r.source
    (res, { r with source := src })
  else
    match r.a with
    | none =>
        let (a, src) := listNext r.source
        let (b, src2) := listNext src
        let r2 := { r with a := a, b := b, source := src2 }
        match a with
        | none => (none, r2)
        | some av =>
            match b with
            | none => (some av, r2)
            | some bv => interpStep av bv r2
    | some av =>
        match r.b with
        | none => (none, r)
        | some bv => interpStep av bv r

/-- Collect up to `n` outputs of the rate converter, stopping at the first
`none`. -/
def outputs (r : Rate) : ℕ → List ℚ
  | 0 => []
  | n + 1 =>
      match r.next with
      | (some x, r2) => x :: outputs r2 n
      | (none, _) => []

end Rate

/-- `DeviceConfig` from src/source/mod.rs (the sample format is abstracted to
a numeric tag; equality compares all three fields as in the source). -/
structure DeviceConfig where
  channel_count : ℕ
  sample_rate : ℕ
  sample_format : ℕ
  deriving DecidableEq, Repr

/-- `Controls` from src/controls.rs; durations are modelled in seconds
as `ℚ`. -/
structure Controls where
  fade_duration : ℚ
  prefetch : ℚ
  volume : ℚ
  play : Bool
  deriving DecidableEq, Repr

/-- `PrefetchState` from src/prefetch_state.rs. -/
inductive PrefetchState where
  | NoPrefetch
  | PrefetchFailed
  | PrefetchSuccessful
  deriving DecidableEq, Repr

/-- `CallbackInfo` from src/callback_info.rs; `Instant` and `Duration`
payloads are modelled as `ℚ`. -/
inductive CallbackInfo where
  | SourceEnded (s : PrefetchState)
  | NoSource
  | PauseEnds (t : ℚ)
  | PrefetchTime (t : ℚ)
  deriving DecidableEq, Repr

/-- A concrete model of a `Box<dyn Source>` trait object as used by the
mixer: a script of `read` results, plus the fixed answers of
`preferred_config`, `init`, `volume` and `get_time`.  Each `read` entry is
the list of samples the source writes into the front of the buffer together
with the optional error id the call returns alongside the written count. -/
structure SrcModel where
  reads : List (List ℚ × Option ℕ)
  pref : Option DeviceConfig
  init_err : Option ℕ
  supports_volume : Bool
  time : Option (ℚ × ℚ)
  deriving DecidableEq, Repr

/-- `Source::read` on the script model: writes
`min payload.length buffer.length` samples at the front of the buffer and
leaves the rest of the buffer untouched (stale); an exhausted script reads
`0` samples with no error. -/
def SrcModel.read (s : SrcModel) (buf : List ℚ) :
    ℕ × Option ℕ × List ℚ × SrcModel :=
  match s.reads with
  | [] => (0, none, buf, s)
  | (payload, e) :: rest =>
      let cnt := min payload.length buf.length
      (cnt, e, payload.take cnt ++ buf.drop cnt, { s with reads := rest })

/-- `SharedData` from src/shared_data.rs: controls, current-source slot,
prefetched-source slot, and the two callback registries (modelled only by
whether a handler is installed; invocations are recorded in the mix result's
event lists).

The `do_prefetch_notify` field is modelled from the spec: the mixer
(src/mixer.rs lines 169, 252, 265) reads and writes an atomic
`SharedData.do_prefetch_notify` flag that is absent from this snapshot's
shared_data.rs; per the spec it is the prefetch-notify arming flag,
re-armed on hand-off and cleared when `PrefetchTime` is emitted. -/
structure SharedData where
  controls : Controls
  source : Option SrcModel
  prefetched : Option SrcModel
  do_prefetch_notify : Bool
  callback_set : Bool
  err_callback_set : Bool
  deriving DecidableEq, Repr

/-- `Mixer` from src/mixer.rs. -/
structure Mixer where
  shared : SharedData
  volume : VolumeIterator
  last_play : Option Bool
  last_sound : Bool
  info : DeviceConfig
  deriving DecidableEq, Repr

/-- Result of a mix-path call: the updated mixer, the buffer contents, the
event-callback invocations, the error-callback invocations, and the pending
`?`-propagated error (`Result` of `try_mix`/`play`), in order. -/
structure MixRes where
  mixer : Mixer
  buf : List ℚ
  events : List CallbackInfo
  errs : List ℕ
  err : Option ℕ
  deriving DecidableEq, Repr

namespace Mixer

/-- Apply `next_vol` gains to every sample of a buffer in order, as the
`for s in d.iter_mut()` loop of `play_source_inner` does. -/
def mapNextVol (v : VolumeIterator) : List ℚ → List ℚ × VolumeIterator
  | [] => ([], v)
  | x :: xs =>
      let (g, v2) := v.next_vol
      let (ys, v3) := mapNextVol v2 xs
      (x * g :: ys, v3)

/-- `Mixer::play_source_inner`: read from the source, route a read error to
the error callback, advance the volume iterator (`skip_vol` when the source
applies gain itself, otherwise per-sample multiplication over the whole
buffer unless `controls.volume == 1`), and return the written count.  The
`controls.volume == 0` arm is kept although it is unreachable under
`controls.volume == 1`, exactly as in the source. -/
def play_source_inner (m : Mixer) (src : SrcModel) (buf : List ℚ)
    (controls : Controls) : Mixer × SrcModel × List ℚ × ℕ × List ℕ :=
  let supports_volume := src.supports_volume
  let (cnt, e, buf2, src2) := src.read buf
  let errs := match e with | some e => [e] | none => []
  if supports_volume then
    ({ m with volume := m.volume.skip_vol cnt }, src2, buf2, cnt, errs)
  else if controls.volume ≠ 1 then
    let (buf3, v) := mapNextVol m.volume buf2
    ({ m with volume := v }, src2, buf3, cnt, errs)
  else if controls.volume = 0 then
    (m, src2, List.replicate cnt (0 : ℚ) ++ buf2.drop cnt, cnt, errs)
  else
    (m, src2, buf2, cnt, errs)

/-- `Mixer::play_source`: a missing source reads zero samples. -/
def play_source (m : Mixer) (src : Option SrcModel) (buf : List ℚ)
    (controls : Controls) : Mixer × Option SrcModel × List ℚ × ℕ × List ℕ :=
  match src with
  | some s =>
      let (m2, s2, buf2, cnt, errs) := m.play_source_inner s buf controls
      (m2, some s2, buf2, cnt, errs)
  | none => (m, none, buf, 0, [])

/-- `Mixer::check_prefetch_callback`: decide whether the prefetch-time
notification fires, store `src` into the current-source slot, invoke the
queued callback, then the `PrefetchTime` callback (clearing the notify
flag). -/
def check_prefetch_callback (m : Mixer) (src : Option SrcModel)
    (controls : Controls) (qcb : Option CallbackInfo) :
    Mixer × List CallbackInfo :=
  let cb : Option ℚ :=
    if controls.prefetch ≠ 0 ∧ m.shared.do_prefetch_notify then
      match src.bind SrcModel.time with
      | some ts =>
          let t := ts.2 - ts.1
          if t ≤ controls.prefetch then some t else none
      | none => none
    else none
  let m2 := { m with shared := { m.shared with source := src } }
  let evs := match qcb with | some c => [c] | none => []
  match cb with
  | some t =>
      ({ m2 with shared := { m2.shared with do_prefetch_notify := false } },
        evs ++ [.PrefetchTime t])
  | none => (m2, evs)

/-- `Mixer::play`: take the current source, drive it into the buffer, and on
a short read run the prefetch hand-off protocol of src/mixer.rs lines
138-194.  Note that the conflicting-`preferred_config` branch returns
without silencing the remaining buffer, exactly as the source does. -/
def play (m : Mixer) (buf : List ℚ) (controls : Controls) : MixRes :=
  let src := m.shared.source
  let m1 : Mixer := { m with shared := { m.shared with source := none } }
  let (m2, src2, buf2, cnt, errs) := m1.play_source src buf controls
  let head := buf2.take cnt
  let data := buf2.drop cnt
  if data.isEmpty then
    let (m3, evs) := m2.check_prefetch_callback src2 controls none
    ⟨m3, buf2, evs, errs, none⟩
  else
    match m2.shared.prefetched with
    | none =>
        let buf3 := head ++ List.replicate data.length (0 : ℚ)
        let ev := if src2.isNone then CallbackInfo.NoSource
          else CallbackInfo.SourceEnded .NoPrefetch
        ⟨m2, buf3, [ev], errs, none⟩
    | some psrc =>
        let cfg := psrc.pref
        if cfg.isSome ∧ cfg ≠ some m2.info then
          ⟨m2, buf2, [.SourceEnded .PrefetchFailed], errs, none⟩
        else
          match psrc.init_err with
          | some e => ⟨m2, buf2, [], errs, some e⟩
          | none =>
              let m3 : Mixer := { m2 with shared :=
                { m2.shared with do_prefetch_notify := true } }
              let src3 := m3.shared.prefetched
              let m4 : Mixer := { m3 with shared :=
                { m3.shared with prefetched := none } }
              let (m5, src4, data2, cnt2, errs2) :=
                m4.play_source src3 data controls
              let tail := data2.drop cnt2
              if tail.isEmpty then
                let (m6, evs) := m5.check_prefetch_callback src4 controls
                  (some (.SourceEnded .PrefetchSuccessful))
                ⟨m6, head ++ data2, evs, errs ++ errs2, none⟩
              else
                let buf3 := head ++ data2.take cnt2 ++
                  List.replicate tail.length (0 : ℚ)
                ⟨m5, buf3,
                  [.SourceEnded .PrefetchSuccessful,
                    .SourceEnded .NoPrefetch],
                  errs ++ errs2, none⟩

/-- `Mixer::try_mix`: snapshot controls, rearm the volume ramp on a
play-state flip, then either drive the sources (playing) or play out the
in-flight fade and silence the rest (paused), firing `PauseEnds`
edge-triggered. -/
def try_mix (m : Mixer) (buf : List ℚ) (play_time : ℚ) : MixRes :=
  let controls := m.shared.controls
  let lp := m.last_play.getD controls.play
  let m1 : Mixer := { m with
    last_play := some controls.play,
    volume := m.volume.set_volume controls.volume lp }
  if controls.play then
    let m2 : Mixer := { m1 with last_sound := true }
    let m3 : Mixer :=
      if !lp then
        let m' : Mixer :=
          if m2.volume.until_target.isNone then
            { m2 with volume := m2.volume.set_volume 0 lp }
          else m2
        { m' with
          volume := m'.volume.to_linear_time_rate controls.volume
            m'.info.sample_rate controls.fade_duration
            m'.info.channel_count }
      else m2
    m3.play buf controls
  else
    let m2 : Mixer :=
      if lp then
        { m1 with
          volume := m1.volume.to_linear_time_rate 0
            m1.info.sample_rate controls.fade_duration
            m1.info.channel_count }
      else m1
    let len := min (m2.volume.until_target.getD 0 * m2.info.channel_count)
      buf.length
    if len ≠ 0 then
      let r := m2.play (buf.take len) controls
      match r.err with
      | some e => ⟨r.mixer, r.buf ++ buf.drop len, r.events, r.errs, some e⟩
      | none =>
          let m3 : Mixer := { r.mixer with last_sound := true }
          ⟨m3, r.buf ++ List.replicate (buf.length - len) (0 : ℚ),
            r.events, r.errs, none⟩
    else
      let buf2 := List.replicate buf.length (0 : ℚ)
      if m2.last_sound then
        ⟨{ m2 with last_sound := false }, buf2, [.PauseEnds play_time],
          [], none⟩
      else
        ⟨m2, buf2, [], [], none⟩

/-- `Mixer::mix`: run `try_mix`; on error silence the whole buffer and route
the error to the error callback. -/
def mix (m : Mixer) (buf : List ℚ) (play_time : ℚ) : MixRes :=
  let r := m.try_mix buf play_time
  match r.err with
  | some e =>
      ⟨r.mixer, List.replicate r.buf.length (0 : ℚ), r.events,
        r.errs ++ [e], none⟩
  | none => r

/-- Run `mix` over a sequence of buffers (one call per output period),
returning the final mixer and the per-call results. -/
def mixSeq (m : Mixer) (t : ℚ) : List (List ℚ) → Mixer × List MixRes
  | [] => (m, [])
  | buf :: rest =>
    let r := m.mix buf t
    ((mixSeq r.mixer t rest).1, r :: (mixSeq r.mixer t rest).2)

end Mixer

/-- A volume iterator whose ramp direction is nonnegative
(`0 ≤ step · multiplier`); constant iterators qualify trivially. -/
def VolumeIterator.RampUp : VolumeIterator → Prop
  | .Constant _ => True
  | .Linear _ step _ _ multiplier _ _ => 0 ≤ step * multiplier

/-! Concrete scenario states used by the closed counterexample and failing
input theorems.  The device config is stereo 44100 Hz; `scenarioCfgB` is a
deliberately different config for the conflicting-prefetch scenarios. -/

/-- The negotiated device config of the concrete scenarios. -/
def scenarioCfgA : DeviceConfig := ⟨2, 44100, 0⟩

/-- A preferred config conflicting with `scenarioCfgA`. -/
def scenarioCfgB : DeviceConfig := ⟨1, 48000, 0⟩

/-- Controls: playing, volume 1, no fade, no prefetch threshold. -/
def scenarioControlsPlay : Controls := ⟨0, 0, 1, true⟩

/-- A prefetched source whose preferred config conflicts with the device. -/
def scenarioConflictingSrc : SrcModel := ⟨[], some scenarioCfgB, none, false, none⟩

/-- A current source that writes one sample `5` and then ends. -/
def scenarioShortSrc : SrcModel := ⟨[([5], none)], none, none, false, none⟩

/-- A current source whose read writes one sample `5` and returns error 42. -/
def scenarioErrSrc : SrcModel := ⟨[([5], some 42)], none, none, false, none⟩

/-- C1's failing input: no current source, a conflicting prefetched source,
a stale buffer `[7, 7]`. -/
def c1Mixer : Mixer :=
  ⟨⟨scenarioControlsPlay, none, some scenarioConflictingSrc, true, true, true⟩,
    .Constant 1, some true, true, scenarioCfgA⟩

/-- C7's failing input: a current source that ends after one sample, a
conflicting prefetched source. -/
def c7Mixer : Mixer :=
  ⟨⟨scenarioControlsPlay, some scenarioShortSrc, some scenarioConflictingSrc,
      true, true, true⟩,
    .Constant 1, some true, true, scenarioCfgA⟩

/-- C4's counterexample input: the current source's read writes one sample
and errs; no prefetched source. -/
def c4Mixer : Mixer :=
  ⟨⟨scenarioControlsPlay, some scenarioErrSrc, none, true, true, true⟩,
    .Constant 1, some true, true, scenarioCfgA⟩

/-- C9's failing input: a linear ramp on 2 channels sitting on the second
channel slot of a tick. -/
def c9Vol : VolumeIterator := .Linear 0 1 0 10 1 2 1

/-- A current source that immediately reports end of stream. -/
def scenarioEmptySrc : SrcModel := ⟨[([], none)], none, none, false, none⟩

/-- A prefetched source with three samples and no preferred config. -/
def scenarioLongSrc : SrcModel := ⟨[([6, 7, 8], none)], none, none, false, none⟩

/-- Witness input for C5: mono device at rate 2, fade 1 s, paused with a
completed (constant) fade, about to flip to playing. -/
def c5WitnessMixer : Mixer :=
  ⟨⟨⟨1, 0, 1, true⟩, none, none, true, true, true⟩, .Constant 1, some false,
    false, ⟨1, 2, 0⟩⟩

/-- Witness input for C6: a current source ending after one sample and a
compatible prefetched source. -/
def c6WitnessMixer : Mixer :=
  ⟨⟨scenarioControlsPlay, some scenarioShortSrc, some scenarioLongSrc, false,
      true, true⟩,
    .Constant 1, some true, true, scenarioCfgA⟩

/-- Witness input for C8: just paused (play flipped to false), zero fade,
still marked as having produced sound. -/
def c8WitnessMixer : Mixer :=
  ⟨⟨⟨0, 0, 1, false⟩, some scenarioLongSrc, none, true, true, true⟩,
    .Constant 1, some true, true, scenarioCfgA⟩

/-- Witness input for C10: a current source that ends immediately, no
prefetched source. -/
def c10WitnessMixer : Mixer :=
  ⟨⟨scenarioControlsPlay, some scenarioEmptySrc, none, true, true, true⟩,
    .Constant 1, some true, true, scenarioCfgA⟩

/-- Witness input for C2: a mid-stream rate-converter state for rates 1→2
(`ratio = 1/2`), with lookahead samples 2 and 4. -/
def c2WitnessRate : Rate := ⟨[5], 1 / 2, 0, some 2, some 4⟩

/-- C8's failing input, part of the stalled-fade scenario: a source that does
not support volume and produces three two-sample reads. -/
def c8StuckSrc : SrcModel :=
  ⟨[([1, 1], none), ([1, 1], none), ([1, 1], none)], none, none, false, none⟩

/-- C8's failing input: mono device at rate 2, just paused (play flipped to
false) with `fade_duration = 1` s and volume exactly `1`, playing
`c8StuckSrc`.  The pause fade never advances because the gain loop is
skipped at volume 1 and `skip_vol` only runs for volume-supporting
sources. -/
def c8StuckMixer : Mixer :=
  ⟨⟨⟨1, 0, 1, false⟩, some c8StuckSrc, none, true, true, true⟩,
    .Constant 1, some true, true, ⟨1, 2, 0⟩⟩

/-- The state the stalled pause of `c8StuckMixer` reaches once its source is
exhausted: a fixpoint of `mix` whose fade is still 2 ticks from complete and
whose `last_sound` is still armed, so `PauseEnds` can never fire. -/
def c8FixMixer : Mixer :=
  ⟨⟨⟨1, 0, 1, false⟩, none, none, true, true, true⟩,
    .Linear 1 (-(1 / 2)) 0 2 1 1 0, some false, true, ⟨1, 2, 0⟩⟩

/-- Witness input for C8's completion case: mid-pause with the fade complete
(constant volume) and sound produced since the last firing. -/
def c8CompleteMixer : Mixer :=
  ⟨⟨⟨1, 0, 1, false⟩, none, none, true, true, true⟩,
    .Constant 0, some false, true, ⟨1, 2, 0⟩⟩

/-- Witness input for C8's edge-off case: mid-pause, fade complete,
`PauseEnds` already fired (`last_sound` cleared). -/
def c8DoneMixer : Mixer :=
  ⟨⟨⟨1, 0, 1, false⟩, none, none, true, true, true⟩,
    .Constant 0, some false, false, ⟨1, 2, 0⟩⟩

/-- Witness input for C8's in-flight case: mid-pause with 2 fade ticks still
remaining. -/
def c8MidFadeMixer : Mixer :=
  ⟨⟨⟨1, 0, 1, false⟩, none, none, true, true, true⟩,
    .Linear 1 (-(1 / 2)) 0 2 1 1 0, some false, true, ⟨1, 2, 0⟩⟩

/-! Helper lemmas about the volume ramp. -/

namespace VolumeIterator

theorem stepN_add (v : VolumeIterator) (a b : ℕ) :
    stepN v (a + b) = stepN (stepN v a) b := by
  induction a generalizing v with
  | zero => simp [stepN]
  | succ n ih =>
      rw [Nat.succ_add]
      simp only [stepN]
      exact ih (v.next_vol).2

theorem stepN_succ (v : VolumeIterator) (n : ℕ) :
    stepN v (n + 1) = ((stepN v n).next_vol).2 := by
  rw [stepN_add]
  simp [stepN]

theorem stepN_constant (x : ℚ) (n : ℕ) :
    stepN (.Constant x) n = .Constant x := by
  induction n with
  | zero => rfl
  | succ k ih => rw [stepN_succ, ih]; rfl

theorem rampUp_next_vol (v : VolumeIterator) (h : v.RampUp) :
    ((v.next_vol).2).RampUp := by
  cases v with
  | Constant c => exact trivial
  | Linear b s c T mu ch j =>
      simp only [next_vol]
      split_ifs <;> first
        | exact trivial
        | exact h

theorem rampUp_stepN (v : VolumeIterator) (h : v.RampUp) (n : ℕ) :
    (stepN v n).RampUp := by
  induction n with
  | zero => exact h
  | succ k ih => rw [stepN_succ]; exact rampUp_next_vol _ ih

theorem curGain_constant (x : ℚ) : curGain (.Constant x) = x := rfl

theorem curGain_linear (b s : ℚ) (c T : ℤ) (mu : ℚ) (ch j : ℕ) :
    curGain (.Linear b s c T mu ch j) = (b + s * (c : ℚ)) * mu := by
  simp only [curGain, next_vol]
  split_ifs <;> rfl

theorem curGain_le_next_vol (v : VolumeIterator) (h : v.RampUp) :
    curGain v ≤ curGain ((v.next_vol).2) := by
  cases v with
  | Constant c => simp [curGain, next_vol]
  | Linear b s c T mu ch j =>
      have hs : 0 ≤ s * mu := h
      by_cases h1 : j + 1 = ch
      · by_cases h2 : T ≤ c + 1
        · simp [next_vol, h1, h2, curGain_linear, curGain_constant]
        · simp only [next_vol, if_pos h1, if_neg h2]
          rw [curGain_linear, curGain_linear]
          push_cast
          nlinarith
      · simp [next_vol, h1, curGain_linear]

theorem gainSeq_mono (v : VolumeIterator) (h : v.RampUp) (i : ℕ) :
    gainSeq v i ≤ gainSeq v (i + 1) := by
  rw [gainSeq, gainSeq, stepN_succ]
  exact curGain_le_next_vol _ (rampUp_stepN v h i)

theorem stepN_within_channel (b s : ℚ) (c T : ℤ) (mu : ℚ) (ch j d : ℕ)
    (h : j + d < ch) :
    stepN (.Linear b s c T mu ch j) d = .Linear b s c T mu ch (j + d) := by
  induction d generalizing j with
  | zero => simp [stepN]
  | succ n ih =>
      have hj : ¬(j + 1 = ch) := by omega
      have step1 : stepN (.Linear b s c T mu ch j) (n + 1) =
          stepN (.Linear b s c T mu ch (j + 1)) n := by
        simp [stepN, next_vol, hj]
      rw [step1, ih (j + 1) (by omega)]
      congr 1
      omega

theorem stepN_full_tick (b s : ℚ) (c T : ℤ) (mu : ℚ) (ch : ℕ) (hch : 1 ≤ ch) :
    stepN (.Linear b s c T mu ch 0) ch =
      if T ≤ c + 1 then VolumeIterator.Constant ((b + s * (c : ℚ)) * mu)
      else .Linear b s (c + 1) T mu ch 0 := by
  obtain ⟨d, rfl⟩ : ∃ d, ch = d + 1 := ⟨ch - 1, by omega⟩
  rw [stepN_succ, stepN_within_channel b s c T mu (d + 1) 0 d (by omega)]
  simp only [next_vol, Nat.zero_add]
  split_ifs with h1 h2 <;> simp_all

theorem linear_zero_start (vol : ℚ) (n ch : ℕ) :
    linear 0 vol (n : ℤ) ch = .Linear 0 (vol / (n : ℚ)) 0 (n : ℤ) 1 ch 0 := by
  simp [linear]

theorem ramp_stepN_ticks (vol : ℚ) (n ch : ℕ) (hn : 1 ≤ n) (hch : 1 ≤ ch)
    (k : ℕ) (hk : k ≤ n) :
    stepN (linear 0 vol (n : ℤ) ch) (k * ch) =
      if k < n then .Linear 0 (vol / (n : ℚ)) (k : ℤ) (n : ℤ) 1 ch 0
      else .Constant (vol / (n : ℚ) * ((n : ℚ) - 1)) := by
  induction k with
  | zero =>
      rw [if_pos (by omega)]
      simpa [stepN] using linear_zero_start vol n ch
  | succ j ih =>
      have hj : j ≤ n := by omega
      have hjn : j < n := by omega
      rw [Nat.succ_mul, stepN_add, ih hj, if_pos hjn,
        stepN_full_tick _ _ _ _ _ _ hch]
      by_cases hlt : j + 1 < n
      · rw [if_neg (show ¬((n : ℤ) ≤ (j : ℤ) + 1) by omega), if_pos hlt]
        norm_num
      · have hje : j + 1 = n := by omega
        rw [if_pos (show (n : ℤ) ≤ (j : ℤ) + 1 by omega),
          if_neg (show ¬(j + 1 < n) by omega)]
        have hcast : ((j : ℤ) : ℚ) = (n : ℚ) - 1 := by
          have h3 : (j : ℚ) + 1 = (n : ℚ) := by exact_mod_cast hje
          push_cast
          linarith
        rw [hcast]
        congr 1
        ring

end VolumeIterator

/-! Claim theorems. -/

/-- C1 (failing input): a mix call that ends in the `PrefetchFailed` branch
returns with the unwritten part of the buffer left untouched (stale `[7,7]`
here), not set to the equilibrium value, so the claim that every mix call
fills the entire requested buffer fails on the code. -/
theorem c1_prefetch_failed_buffer_not_silenced :
    (c1Mixer.mix [7, 7] 0).buf = [7, 7] ∧
    (c1Mixer.mix [7, 7] 0).events = [.SourceEnded .PrefetchFailed] ∧
    (c1Mixer.mix [7, 7] 0).buf ≠ List.replicate 2 EQUILIBRIUM := by
  refine ⟨by decide, by decide, by decide⟩

/-- C7 (failing input): when the current source ends mid-buffer and the
prefetched source's preferred config conflicts with the device config, the
mixer does emit `SourceEnded(PrefetchFailed)` and does leave the prefetched
source queued, but it does not silence the remainder of the buffer: the tail
keeps its stale contents `[9, 9]`. -/
theorem c7_prefetch_failed_leaves_stale_tail :
    (c7Mixer.mix [9, 9, 9] 0).events = [.SourceEnded .PrefetchFailed] ∧
    (c7Mixer.mix [9, 9, 9] 0).mixer.shared.prefetched =
      some scenarioConflictingSrc ∧
    (c7Mixer.mix [9, 9, 9] 0).buf = [5, 9, 9] ∧
    (c7Mixer.mix [9, 9, 9] 0).buf ≠
      [5, EQUILIBRIUM, EQUILIBRIUM] := by
  refine ⟨by decide, by decide, by decide, by decide⟩

/-- C4 (counterexample): when the current source's read writes one sample
(`5`) and returns error `42`, the error callback is invoked exactly once with
that error, but the call's buffer is `[5, 0, 0]`, keeping the written sample
rather than being fully silenced as the claim states. -/
theorem c4_written_samples_kept_counterexample :
    (c4Mixer.mix [9, 9, 9] 0).errs = [42] ∧
    (c4Mixer.mix [9, 9, 9] 0).buf = [5, 0, 0] ∧
    (c4Mixer.mix [9, 9, 9] 0).buf ≠ List.replicate 3 EQUILIBRIUM := by
  refine ⟨by decide, by decide, by decide⟩

/-- C9 (failing input): from a `Linear` state on 2 channels with
`cur_channel = 1`, `skip_vol 1` leaves `cur_channel = 2` (out of range,
because the wrap test uses `>` instead of `>=`) while one `next_vol` call
wraps to `cur_channel = 0` and advances `cur_count`, so `skip_vol n` does not
behave as `n` calls to `next_vol` as its own documentation states. -/
theorem c9_skip_vol_diverges_from_next_vol :
    VolumeIterator.skip_vol c9Vol 1 = .Linear 0 1 0 10 1 2 2 ∧
    (VolumeIterator.next_vol c9Vol).2 = .Linear 0 1 1 10 1 2 0 ∧
    VolumeIterator.skip_vol c9Vol 1 ≠ (VolumeIterator.next_vol c9Vol).2 := by
  refine ⟨by decide, by decide, by decide⟩

/-- C3 (counterexample): converting `[1,2,3]` from 1 to 2 channels yields
`[1,0,2,0,3,0]` (each frame's extra target channel is padded with the
equilibrium value), not `[1,1,2,2,3,3]` as the claim states. -/
theorem c3_mono_to_stereo_counterexample :
    ChannelConverter.outputs (ChannelConverter.new [1, 2, 3] 1 2) 6 =
      [1, 0, 2, 0, 3, 0] ∧
    ChannelConverter.outputs (ChannelConverter.new [1, 2, 3] 1 2) 6 ≠
      [1, 1, 2, 2, 3, 3] := by
  refine ⟨by decide, by decide⟩

/-- C3 (amended): mono→stereo of `[1,2,3]` yields
`[1, EQ, 2, EQ, 3, EQ]`: the single source channel fills the first target
slot of each frame and the extra target channel is padded with the
equilibrium (silence) value. -/
theorem c3_mono_to_stereo_pads_equilibrium :
    ChannelConverter.outputs (ChannelConverter.new [1, 2, 3] 1 2) 6 =
      [1, EQUILIBRIUM, 2, EQUILIBRIUM, 3, EQUILIBRIUM] := by decide

/-- C2 (counterexample): `Rate::new` sets `ratio = source_rate/target_rate`
(here `1/2`), not `target_rate/source_rate` (`2`) as the claim states, and
the two directions are observably different: on input `[0,1]` with rates
1→2 the code emits `[0, 1/2]` while the claim's ratio direction would emit
only `[0]`. -/
theorem c2_ratio_direction_counterexample :
    (Rate.new [0, 1] 1 2).ratio = 1 / 2 ∧
    (Rate.new [0, 1] 1 2).ratio ≠ 2 ∧
    Rate.outputs (Rate.new [0, 1] 1 2) 3 = [0, 1 / 2] ∧
    Rate.outputs (Rate.newSpecRatio [0, 1] 1 2) 3 = [0] := by
  refine ⟨by norm_num [Rate.new], by norm_num [Rate.new], ?_, ?_⟩ <;>
    norm_num [Rate.outputs, Rate.next, Rate.new, Rate.newSpecRatio,
      Rate.interpStep, Rate.shiftLoop, listNext]

/-- C5 (counterexample): for a pinned fade-in ramp over `n = 2` ticks on one
channel toward target volume `1`, after `2` ticks the iterator has collapsed
to `Constant (1/2)` and the emitted gain is `1/2`, not the target `1`, so
the gain does not equal the target exactly after `fade·rate` ticks. -/
theorem c5_target_not_reached_counterexample :
    VolumeIterator.stepN (VolumeIterator.linear 0 1 2 1) 2 =
      .Constant (1 / 2) ∧
    VolumeIterator.gainSeq (VolumeIterator.linear 0 1 2 1) 2 ≠ 1 := by
  constructor <;>
    norm_num [VolumeIterator.gainSeq, VolumeIterator.curGain,
      VolumeIterator.stepN, VolumeIterator.next_vol, VolumeIterator.linear]

/-- C5 (amended): on a play-state flip from false to true out of a completed
fade (constant volume iterator), the mix call re-arms the volume into the
ramp `linear 0 target n ch` with `n = fade_duration·sample_rate` ticks; the
ramp's gain at tick 0 is `0` (start pinned at silence); the emitted gain is
monotone nondecreasing; after `n` ticks (`n·ch` channel-slots) the iterator
has collapsed to `Constant (target·(n−1)/n)` — the last ramp value, not the
target itself — with no discontinuity at the collapse (the gain emitted at
the last ramp slot equals the held constant), and every later gain holds
that value. -/
theorem c5_fade_in_ramp (m : Mixer) (t c vol : ℚ) (n : ℕ)
    (hplay : m.shared.controls.play = true)
    (hfade : m.shared.controls.fade_duration ≠ 0)
    (hvolc : m.shared.controls.volume = vol)
    (hvol : 0 ≤ vol)
    (hv : m.volume = .Constant c)
    (hlp : m.last_play = some false)
    (hsrc : m.shared.source = none)
    (hn : i32trunc ((m.info.sample_rate : ℚ) *
      m.shared.controls.fade_duration) = (n : ℤ))
    (hn1 : 1 ≤ n) (hch : 1 ≤ m.info.channel_count) :
    (m.mix [] t).mixer.volume =
      VolumeIterator.linear 0 vol (n : ℤ) m.info.channel_count ∧
    VolumeIterator.curGain
      (VolumeIterator.linear 0 vol (n : ℤ) m.info.channel_count) = 0 ∧
    (∀ i, VolumeIterator.gainSeq
        (VolumeIterator.linear 0 vol (n : ℤ) m.info.channel_count) i ≤
      VolumeIterator.gainSeq
        (VolumeIterator.linear 0 vol (n : ℤ) m.info.channel_count) (i + 1)) ∧
    VolumeIterator.stepN
        (VolumeIterator.linear 0 vol (n : ℤ) m.info.channel_count)
        (n * m.info.channel_count) =
      .Constant (vol / (n : ℚ) * ((n : ℚ) - 1)) ∧
    (∀ i, n * m.info.channel_count ≤ i →
      VolumeIterator.gainSeq
        (VolumeIterator.linear 0 vol (n : ℤ) m.info.channel_count) i =
        vol / (n : ℚ) * ((n : ℚ) - 1)) ∧
    VolumeIterator.gainSeq
        (VolumeIterator.linear 0 vol (n : ℤ) m.info.channel_count)
        (n * m.info.channel_count - 1) =
      vol / (n : ℚ) * ((n : ℚ) - 1) := by
  have hConst : VolumeIterator.stepN
      (VolumeIterator.linear 0 vol (n : ℤ) m.info.channel_count)
      (n * m.info.channel_count) =
      .Constant (vol / (n : ℚ) * ((n : ℚ) - 1)) := by
    have h := VolumeIterator.ramp_stepN_ticks vol n m.info.channel_count hn1
      hch n le_rfl
    rwa [if_neg (lt_irrefl n)] at h
  refine ⟨?_, ?_, ?_, hConst, ?_, ?_⟩
  · simp [Mixer.mix, Mixer.try_mix, Mixer.play, Mixer.play_source,
      Mixer.check_prefetch_callback, hplay, hfade, hv, hlp, hsrc,
      VolumeIterator.set_volume, VolumeIterator.until_target,
      VolumeIterator.to_linear_time_rate, VolumeIterator.to_linear,
      VolumeIterator.constant, hvolc, hn]
  · rw [VolumeIterator.linear_zero_start, VolumeIterator.curGain_linear]
    norm_num
  · intro i
    apply VolumeIterator.gainSeq_mono
    rw [VolumeIterator.linear_zero_start]
    show 0 ≤ vol / (n : ℚ) * 1
    rw [mul_one]
    positivity
  · intro i hi
    obtain ⟨d, rfl⟩ : ∃ d, i = n * m.info.channel_count + d :=
      ⟨i - n * m.info.channel_count, by omega⟩
    rw [VolumeIterator.gainSeq, VolumeIterator.stepN_add, hConst,
      VolumeIterator.stepN_constant, VolumeIterator.curGain_constant]
  · obtain ⟨k, rfl⟩ : ∃ k, n = k + 1 := ⟨n - 1, by omega⟩
    have h1 : (k + 1) * m.info.channel_count - 1 =
        k * m.info.channel_count + (m.info.channel_count - 1) := by
      rw [Nat.succ_mul]
      have h2 : 1 ≤ m.info.channel_count := hch
      omega
    rw [VolumeIterator.gainSeq, h1, VolumeIterator.stepN_add,
      VolumeIterator.ramp_stepN_ticks vol (k + 1) m.info.channel_count hn1
        hch k (by omega),
      if_pos (by omega),
      VolumeIterator.stepN_within_channel _ _ _ _ _ _ 0
        (m.info.channel_count - 1) (by omega),
      VolumeIterator.curGain_linear]
    push_cast
    ring

/-- C5 (witness): the fade-in theorem instantiated on a mono device at
sample rate 2 with fade duration 1 s (a 2-tick ramp) toward volume 1. -/
theorem c5_fade_in_ramp_witness :
    (c5WitnessMixer.mix [] 0).mixer.volume =
      VolumeIterator.linear 0 1 (2 : ℤ) c5WitnessMixer.info.channel_count ∧
    VolumeIterator.curGain
      (VolumeIterator.linear 0 1 (2 : ℤ)
        c5WitnessMixer.info.channel_count) = 0 ∧
    (∀ i, VolumeIterator.gainSeq
        (VolumeIterator.linear 0 1 (2 : ℤ)
          c5WitnessMixer.info.channel_count) i ≤
      VolumeIterator.gainSeq
        (VolumeIterator.linear 0 1 (2 : ℤ)
          c5WitnessMixer.info.channel_count) (i + 1)) ∧
    VolumeIterator.stepN
        (VolumeIterator.linear 0 1 (2 : ℤ)
          c5WitnessMixer.info.channel_count)
        (2 * c5WitnessMixer.info.channel_count) =
      .Constant (1 / (2 : ℚ) * ((2 : ℚ) - 1)) ∧
    (∀ i, 2 * c5WitnessMixer.info.channel_count ≤ i →
      VolumeIterator.gainSeq
        (VolumeIterator.linear 0 1 (2 : ℤ)
          c5WitnessMixer.info.channel_count) i =
        1 / (2 : ℚ) * ((2 : ℚ) - 1)) ∧
    VolumeIterator.gainSeq
        (VolumeIterator.linear 0 1 (2 : ℤ)
          c5WitnessMixer.info.channel_count)
        (2 * c5WitnessMixer.info.channel_count - 1) =
      1 / (2 : ℚ) * ((2 : ℚ) - 1) :=
  c5_fade_in_ramp c5WitnessMixer 0 1 1 2 rfl (by norm_num [c5WitnessMixer])
    rfl (by norm_num) rfl rfl rfl
    (by norm_num [c5WitnessMixer, i32trunc]) (by norm_num)
    (by norm_num [c5WitnessMixer])

/-! Helper lemmas about the mixer loop, used by the C8 and C10 theorems. -/

theorem play_source_shared (m : Mixer) (src : Option SrcModel)
    (buf : List ℚ) (c : Controls) :
    (Mixer.play_source m src buf c).1.shared = m.shared := by
  cases src with
  | none => rfl
  | some s =>
      simp only [Mixer.play_source, Mixer.play_source_inner]
      split_ifs <;> rfl

theorem check_prefetch_events (m : Mixer) (src : Option SrcModel)
    (c : Controls) (qcb : Option CallbackInfo) :
    ∀ e ∈ (Mixer.check_prefetch_callback m src c qcb).2,
      some e = qcb ∨ ∃ s, e = .PrefetchTime s := by
  intro e he
  simp only [Mixer.check_prefetch_callback] at he
  split at he <;> cases qcb <;> simp_all; tauto

theorem check_prefetch_qcb_mem (m : Mixer) (src : Option SrcModel)
    (c : Controls) (cb : CallbackInfo) :
    cb ∈ (Mixer.check_prefetch_callback m src c (some cb)).2 := by
  simp only [Mixer.check_prefetch_callback]
  split <;> simp

theorem play_end_state (m : Mixer) (buf : List ℚ) (c : Controls)
    (hns : CallbackInfo.SourceEnded .PrefetchSuccessful ∉
      (Mixer.play m buf c).events)
    (hend : CallbackInfo.NoSource ∈ (Mixer.play m buf c).events ∨
      CallbackInfo.SourceEnded .NoPrefetch ∈ (Mixer.play m buf c).events ∨
      CallbackInfo.SourceEnded .PrefetchFailed ∈
        (Mixer.play m buf c).events) :
    (Mixer.play m buf c).mixer.shared.source = none ∧
    (Mixer.play m buf c).mixer.shared.prefetched = m.shared.prefetched ∧
    (Mixer.play m buf c).mixer.shared.controls = m.shared.controls ∧
    (Mixer.play m buf c).mixer.shared.callback_set =
      m.shared.callback_set ∧
    (Mixer.play m buf c).mixer.shared.err_callback_set =
      m.shared.err_callback_set := by
  have hsh1 := play_source_shared
    { m with shared := { m.shared with source := none } }
    m.shared.source buf c
  rcases hps : Mixer.play_source
      { m with shared := { m.shared with source := none } }
      m.shared.source buf c with ⟨m2, src2, buf2, cnt, errs⟩
  rw [hps] at hsh1
  simp only [Mixer.play, hps] at hns hend ⊢
  by_cases hde : (buf2.drop cnt).isEmpty
  · simp only [if_pos hde] at hns hend ⊢
    rcases hend with h | h | h <;>
      rcases check_prefetch_events m2 src2 c none _ h with h2 | ⟨s, h2⟩ <;>
        simp_all
  · simp only [if_neg hde] at hns hend ⊢
    rcases hpre : m2.shared.prefetched with _ | psrc
    · simp_all
    · simp only [hpre] at hns hend ⊢
      by_cases hcfg : psrc.pref.isSome ∧ psrc.pref ≠ some m2.info
      · simp only [if_pos hcfg] at hns hend ⊢
        simp_all
      · simp only [if_neg hcfg] at hns hend ⊢
        rcases hie : psrc.init_err with _ | e
        · simp only [hie] at hns
          split at hns
          · exact absurd (check_prefetch_qcb_mem _ _ _ _) hns
          · simp at hns
        · simp_all

set_option maxHeartbeats 1600000 in
theorem try_mix_cases (m : Mixer) (buf : List ℚ) (t : ℚ) :
    (∃ m3 buf2, m3.shared = m.shared ∧
      (m.try_mix buf t).events =
        (Mixer.play m3 buf2 m.shared.controls).events ∧
      (m.try_mix buf t).mixer.shared =
        (Mixer.play m3 buf2 m.shared.controls).mixer.shared) ∨
    (∀ e ∈ (m.try_mix buf t).events, ∃ s, e = .PauseEnds s) := by
  simp only [Mixer.try_mix]
  split <;> (try split) <;> (try split) <;> (try split) <;>
    first
      | (left; refine ⟨_, _, ?_, rfl, rfl⟩; rfl)
      | (right; simp)

theorem mix_mixer_eq (m : Mixer) (buf : List ℚ) (t : ℚ) :
    (m.mix buf t).mixer = (m.try_mix buf t).mixer := by
  simp only [Mixer.mix]
  split <;> rfl

theorem mix_events_eq (m : Mixer) (buf : List ℚ) (t : ℚ) :
    (m.mix buf t).events = (m.try_mix buf t).events := by
  simp only [Mixer.mix]
  split <;> rfl

theorem until_target_set_volume (v : VolumeIterator) (x : ℚ) (b : Bool) :
    (VolumeIterator.set_volume v x b).until_target = v.until_target := by
  cases v <;> rfl

theorem paused_steady_zero (m : Mixer) (buf : List ℚ) (t : ℚ)
    (h1 : m.shared.controls.play = false)
    (h2 : m.last_play = some false)
    (h3 : m.last_sound = false)
    (h4 : m.volume.until_target.getD 0 = 0) :
    (m.mix buf t).events = [] ∧ (m.mix buf t).errs = [] ∧
    (m.mix buf t).buf = List.replicate buf.length 0 ∧
    (m.mix buf t).mixer.shared = m.shared ∧
    (m.mix buf t).mixer.last_play = some false ∧
    (m.mix buf t).mixer.last_sound = false ∧
    (m.mix buf t).mixer.volume.until_target.getD 0 = 0 := by
  simp [Mixer.mix, Mixer.try_mix, h1, h2, h3, until_target_set_volume, h4]

theorem paused_complete_fires (m : Mixer) (buf : List ℚ) (t : ℚ)
    (h1 : m.shared.controls.play = false)
    (h2 : m.last_play = some false)
    (h3 : m.last_sound = true)
    (h4 : m.volume.until_target.getD 0 = 0) :
    (m.mix buf t).events = [.PauseEnds t] ∧ (m.mix buf t).errs = [] ∧
    (m.mix buf t).buf = List.replicate buf.length 0 ∧
    (m.mix buf t).mixer.shared = m.shared ∧
    (m.mix buf t).mixer.last_play = some false ∧
    (m.mix buf t).mixer.last_sound = false ∧
    (m.mix buf t).mixer.volume.until_target.getD 0 = 0 := by
  simp [Mixer.mix, Mixer.try_mix, h1, h2, h3, until_target_set_volume, h4]

theorem play_no_pause_ends (m : Mixer) (buf : List ℚ) (c : Controls)
    (s : ℚ) : CallbackInfo.PauseEnds s ∉ (Mixer.play m buf c).events := by
  rcases hps : Mixer.play_source
      { m with shared := { m.shared with source := none } }
      m.shared.source buf c with ⟨m2, src2, buf2, cnt, errs⟩
  simp only [Mixer.play, hps]
  by_cases hde : (buf2.drop cnt).isEmpty
  · simp only [if_pos hde]
    intro hmem
    rcases check_prefetch_events m2 src2 c none _ hmem with h2 | ⟨u, h2⟩ <;>
      simp_all
  · simp only [if_neg hde]
    rcases hpre : m2.shared.prefetched with _ | psrc
    · simp only [hpre]
      split <;> simp
    · simp only [hpre]
      by_cases hcfg : psrc.pref.isSome ∧ psrc.pref ≠ some m2.info
      · simp [hcfg]
      · simp only [if_neg hcfg]
        rcases hie : psrc.init_err with _ | e
        · simp only [hie]
          split
          · intro hmem
            rcases check_prefetch_events _ _ _ _ _ hmem with h2 | ⟨u, h2⟩ <;>
              simp_all
          · simp
        · simp

theorem paused_midfade_no_pause_ends (m : Mixer) (buf : List ℚ) (t : ℚ)
    (h1 : m.shared.controls.play = false)
    (h2 : m.last_play = some false)
    (hu : m.volume.until_target.getD 0 ≠ 0)
    (hch : m.info.channel_count ≠ 0)
    (hbuf : buf ≠ []) :
    ∀ s, CallbackInfo.PauseEnds s ∉ (m.mix buf t).events := by
  intro s
  rw [mix_events_eq]
  have hlen : min (m.volume.until_target.getD 0 * m.info.channel_count)
      buf.length ≠ 0 := by
    have h5 : buf.length ≠ 0 := by
      simpa [List.length_eq_zero] using hbuf
    have h6 : m.volume.until_target.getD 0 * m.info.channel_count ≠ 0 :=
      Nat.mul_ne_zero hu hch
    omega
  simp only [Mixer.try_mix, h1, h2, Option.getD_some, Bool.false_eq_true,
    if_false, until_target_set_volume]
  rw [if_pos hlen]
  split <;> exact play_no_pause_ends _ _ _ s

theorem pause_first (m : Mixer) (buf : List ℚ) (t : ℚ)
    (h1 : m.shared.controls.play = false)
    (hfd : m.shared.controls.fade_duration = 0)
    (h2 : m.last_play = some true)
    (h3 : m.last_sound = true) :
    (m.mix buf t).events = [.PauseEnds t] ∧ (m.mix buf t).errs = [] ∧
    (m.mix buf t).buf = List.replicate buf.length 0 ∧
    (m.mix buf t).mixer.shared = m.shared ∧
    (m.mix buf t).mixer.last_play = some false ∧
    (m.mix buf t).mixer.last_sound = false ∧
    (m.mix buf t).mixer.volume = .Constant 0 := by
  simp [Mixer.mix, Mixer.try_mix, h1, h2, h3, hfd,
    VolumeIterator.set_volume, VolumeIterator.until_target,
    VolumeIterator.to_linear_time_rate, VolumeIterator.constant]

theorem paused_run_zero (m : Mixer) (t : ℚ) (bufs : List (List ℚ))
    (h1 : m.shared.controls.play = false)
    (h2 : m.last_play = some false)
    (h3 : m.last_sound = false)
    (h4 : m.volume.until_target.getD 0 = 0) :
    ∀ r ∈ (Mixer.mixSeq m t bufs).2,
      r.events = [] ∧ ∀ x ∈ r.buf, x = 0 := by
  induction bufs generalizing m with
  | nil => simp [Mixer.mixSeq]
  | cons b rest ih =>
      have hs := paused_steady_zero m b t h1 h2 h3 h4
      intro r hr
      simp only [Mixer.mixSeq, List.mem_cons] at hr
      rcases hr with rfl | hr
      · refine ⟨hs.1, ?_⟩
        rw [hs.2.2.1]
        intro x hx
        exact List.eq_of_mem_replicate hx
      · exact ih (m.mix b t).mixer
          (by rw [hs.2.2.2.1]; exact h1)
          hs.2.2.2.2.1 hs.2.2.2.2.2.1 hs.2.2.2.2.2.2 r hr

/-- C8 (counterexample): from a mixer that just paused with
`fade_duration = 1` s, volume exactly `1` and a source that does not support
volume, four consecutive paused calls keep playing full-volume audio and
emit no `PauseEnds` at all (the fade never advances: the gain loop is
skipped at volume 1 and `skip_vol` only runs for volume-supporting
sources); the state they reach is a fixpoint of `mix` that still has
`last_sound = true` and 2 fade ticks outstanding and emits only `NoSource`,
so `PauseEnds` never fires across any continuation of the paused sequence —
refuting the claim that it fires exactly once. -/
theorem c8_pause_ends_never_fires_counterexample :
    (Mixer.mixSeq c8StuckMixer 0 [[9, 9], [9, 9], [9, 9], [9, 9]]).2.map
      MixRes.events = [[], [], [], [.SourceEnded .NoPrefetch]] ∧
    (Mixer.mixSeq c8StuckMixer 0 [[9, 9], [9, 9], [9, 9], [9, 9]]).2.map
      MixRes.buf = [[1, 1], [1, 1], [1, 1], [0, 0]] ∧
    (Mixer.mixSeq c8StuckMixer 0 [[9, 9], [9, 9], [9, 9], [9, 9]]).1 =
      c8FixMixer ∧
    (c8FixMixer.mix [9, 9] 0).mixer = c8FixMixer ∧
    (c8FixMixer.mix [9, 9] 0).events = [.NoSource] ∧
    c8StuckMixer.shared.controls.play = false ∧
    c8StuckMixer.shared.controls.fade_duration = 1 ∧
    c8StuckMixer.last_sound = true ∧
    c8FixMixer.last_sound = true ∧
    c8FixMixer.volume.until_target = some 2 := by
  refine ⟨?_, ?_, ?_, ?_, ?_, rfl, rfl, rfl, rfl, rfl⟩ <;>
    norm_num [Mixer.mixSeq, Mixer.mix, Mixer.try_mix, Mixer.play,
      Mixer.play_source, Mixer.play_source_inner, SrcModel.read,
      Mixer.check_prefetch_callback, c8StuckMixer, c8StuckSrc, c8FixMixer,
      VolumeIterator.set_volume, VolumeIterator.until_target,
      VolumeIterator.to_linear_time_rate, VolumeIterator.to_linear,
      VolumeIterator.linear, VolumeIterator.constant, i32trunc,
      List.replicate_succ]

/-- C8 (amended): `PauseEnds` is edge-triggered on fade completion.  With
`fade_duration = 0` the fade completes immediately: the very first paused
call fully silences its buffer and fires `PauseEnds` exactly once, and no
further paused call fires it or produces sound.  In general, a paused call
whose remaining fade length is zero with sound produced since the last
firing fires `PauseEnds` exactly once and clears the edge; once cleared,
no later paused call fires it while the fade stays complete; and no paused
call fires it while the fade is still in flight.  (When the fade never
completes — volume exactly 1 with a non-volume-supporting source — the
callback therefore never fires, per the counterexample.) -/
theorem c8_pause_ends_edge_trigger (m : Mixer) (buf1 : List ℚ)
    (bufs : List (List ℚ)) (t : ℚ) :
    (m.shared.controls.play = false → m.shared.controls.fade_duration = 0 →
      m.last_play = some true → m.last_sound = true →
      (m.mix buf1 t).events = [.PauseEnds t] ∧
      (m.mix buf1 t).buf = List.replicate buf1.length 0 ∧
      ∀ r ∈ (Mixer.mixSeq (m.mix buf1 t).mixer t bufs).2,
        (∀ s, CallbackInfo.PauseEnds s ∉ r.events) ∧ ∀ x ∈ r.buf, x = 0) ∧
    (m.shared.controls.play = false → m.last_play = some false →
      m.last_sound = true → m.volume.until_target.getD 0 = 0 →
      (m.mix buf1 t).events = [.PauseEnds t] ∧
      (m.mix buf1 t).buf = List.replicate buf1.length 0 ∧
      (m.mix buf1 t).mixer.last_sound = false) ∧
    (m.shared.controls.play = false → m.last_play = some false →
      m.last_sound = false → m.volume.until_target.getD 0 = 0 →
      ∀ r ∈ (Mixer.mixSeq m t bufs).2,
        (∀ s, CallbackInfo.PauseEnds s ∉ r.events) ∧ ∀ x ∈ r.buf, x = 0) ∧
    (m.shared.controls.play = false → m.last_play = some false →
      m.volume.until_target.getD 0 ≠ 0 → m.info.channel_count ≠ 0 →
      buf1 ≠ [] →
      ∀ s, CallbackInfo.PauseEnds s ∉ (m.mix buf1 t).events) := by
  refine ⟨?_, ?_, ?_, ?_⟩
  · intro hplay hfd hlp hls
    have hf := pause_first m buf1 t hplay hfd hlp hls
    refine ⟨hf.1, hf.2.2.1, ?_⟩
    intro r hr
    have hz : (m.mix buf1 t).mixer.volume.until_target.getD 0 = 0 := by
      rw [hf.2.2.2.2.2.2]
      rfl
    have hrun := paused_run_zero (m.mix buf1 t).mixer t bufs
      (by rw [hf.2.2.2.1]; exact hplay)
      hf.2.2.2.2.1 hf.2.2.2.2.2.1 hz r hr
    refine ⟨fun s => ?_, hrun.2⟩
    rw [hrun.1]
    exact List.not_mem_nil _
  · intro hplay hlp hls hz
    have hc := paused_complete_fires m buf1 t hplay hlp hls hz
    exact ⟨hc.1, hc.2.2.1, hc.2.2.2.2.2.1⟩
  · intro hplay hlp hls hz r hr
    have hrun := paused_run_zero m t bufs hplay hlp hls hz r hr
    refine ⟨fun s => ?_, hrun.2⟩
    rw [hrun.1]
    exact List.not_mem_nil _
  · intro hplay hlp hu hch hbuf
    exact paused_midfade_no_pause_ends m buf1 t hplay hlp hu hch hbuf

/-- C8 (witness): the edge-trigger theorem instantiated on four concrete
paused mixers: the zero-fade pause over buffers `[1,2]`, `[3]`, `[4,5]`;
a completed fade with sound produced (fires once and clears); a completed
fade already fired (never fires again); and an in-flight fade (does not
fire). -/
theorem c8_pause_ends_edge_trigger_witness :
    ((c8WitnessMixer.mix [1, 2] 7).events = [.PauseEnds 7] ∧
      (c8WitnessMixer.mix [1, 2] 7).buf = List.replicate 2 0 ∧
      ∀ r ∈ (Mixer.mixSeq (c8WitnessMixer.mix [1, 2] 7).mixer 7
          [[3], [4, 5]]).2,
        (∀ s, CallbackInfo.PauseEnds s ∉ r.events) ∧ ∀ x ∈ r.buf, x = 0) ∧
    ((c8CompleteMixer.mix [1, 2] 7).events = [.PauseEnds 7] ∧
      (c8CompleteMixer.mix [1, 2] 7).buf = List.replicate 2 0 ∧
      (c8CompleteMixer.mix [1, 2] 7).mixer.last_sound = false) ∧
    (∀ r ∈ (Mixer.mixSeq c8DoneMixer 7 [[3], [4, 5]]).2,
      (∀ s, CallbackInfo.PauseEnds s ∉ r.events) ∧ ∀ x ∈ r.buf, x = 0) ∧
    (∀ s, CallbackInfo.PauseEnds s ∉ (c8MidFadeMixer.mix [1, 2] 7).events) :=
  ⟨(c8_pause_ends_edge_trigger c8WitnessMixer [1, 2] [[3], [4, 5]] 7).1
      rfl rfl rfl rfl,
    (c8_pause_ends_edge_trigger c8CompleteMixer [1, 2] [[3], [4, 5]] 7).2.1
      rfl rfl rfl rfl,
    (c8_pause_ends_edge_trigger c8DoneMixer [1, 2] [[3], [4, 5]] 7).2.2.1
      rfl rfl rfl rfl,
    (c8_pause_ends_edge_trigger c8MidFadeMixer [1, 2] [[3], [4, 5]] 7).2.2.2
      rfl rfl (by decide) (by decide) (by decide)⟩

/-- C10: after any mix call whose events report a source end without a
successful hand-off (`NoSource`, `SourceEnded(NoPrefetch)` or
`SourceEnded(PrefetchFailed)`, with no `SourceEnded(PrefetchSuccessful)`),
the current-source slot is empty (the ended source was taken and dropped),
while the controls, the prefetched slot and the two callback registries are
unchanged. -/
theorem c10_source_slot_cleared_on_end (m : Mixer) (buf : List ℚ) (t : ℚ)
    (hns : CallbackInfo.SourceEnded .PrefetchSuccessful ∉
      (m.mix buf t).events)
    (hend : CallbackInfo.NoSource ∈ (m.mix buf t).events ∨
      CallbackInfo.SourceEnded .NoPrefetch ∈ (m.mix buf t).events ∨
      CallbackInfo.SourceEnded .PrefetchFailed ∈ (m.mix buf t).events) :
    (m.mix buf t).mixer.shared.source = none ∧
    (m.mix buf t).mixer.shared.prefetched = m.shared.prefetched ∧
    (m.mix buf t).mixer.shared.controls = m.shared.controls ∧
    (m.mix buf t).mixer.shared.callback_set = m.shared.callback_set ∧
    (m.mix buf t).mixer.shared.err_callback_set =
      m.shared.err_callback_set := by
  rw [mix_events_eq] at hns hend
  rw [mix_mixer_eq]
  rcases try_mix_cases m buf t with ⟨m3, buf2, h3, hev, hsh⟩ | hpe
  · rw [hev] at hns hend
    rw [hsh]
    have h := play_end_state m3 buf2 m.shared.controls hns hend
    rw [h3] at h
    exact h
  · rcases hend with h | h | h <;> rcases hpe _ h with ⟨s, hs⟩ <;> simp at hs

/-- C10 (witness): the frame theorem instantiated on a playing mixer whose
source ends immediately and that has no prefetched source, so the call emits
`SourceEnded(NoPrefetch)`. -/
theorem c10_source_slot_cleared_on_end_witness :
    (c10WitnessMixer.mix [9, 9] 0).mixer.shared.source = none ∧
    (c10WitnessMixer.mix [9, 9] 0).mixer.shared.prefetched =
      c10WitnessMixer.shared.prefetched ∧
    (c10WitnessMixer.mix [9, 9] 0).mixer.shared.controls =
      c10WitnessMixer.shared.controls ∧
    (c10WitnessMixer.mix [9, 9] 0).mixer.shared.callback_set =
      c10WitnessMixer.shared.callback_set ∧
    (c10WitnessMixer.mix [9, 9] 0).mixer.shared.err_callback_set =
      c10WitnessMixer.shared.err_callback_set :=
  c10_source_slot_cleared_on_end c10WitnessMixer [9, 9] 0 (by decide)
    (Or.inr (Or.inl (by decide)))

/-- C4 (amended): when the current source's read writes a short count and
returns an error (no prefetched source queued, mixer volume 1), the error
callback is invoked exactly once with that error, the samples written before
the error are kept in the buffer, and only the remainder is silenced through
the source-ended path, which also emits `SourceEnded(NoPrefetch)`. -/
theorem c4_error_read_keeps_head_silences_tail (m : Mixer) (t : ℚ)
    (p buf : List ℚ) (e : ℕ) (s : SrcModel)
    (hplay : m.shared.controls.play = true)
    (hvol : m.shared.controls.volume = 1)
    (hlp : m.last_play = some true)
    (hsrc : m.shared.source = some s)
    (hreads : s.reads = [(p, some e)])
    (hsv : s.supports_volume = false)
    (hpre : m.shared.prefetched = none)
    (hlen : p.length < buf.length) :
    (m.mix buf t).errs = [e] ∧
    (m.mix buf t).events = [.SourceEnded .NoPrefetch] ∧
    (m.mix buf t).buf = p ++ List.replicate (buf.length - p.length) 0 := by
  have hmin : min p.length buf.length = p.length :=
    min_eq_left (le_of_lt hlen)
  have hne : ¬((buf.drop p.length).isEmpty = true) := by
    rw [List.isEmpty_iff, List.drop_eq_nil_iff]
    omega
  simp [Mixer.mix, Mixer.try_mix, Mixer.play, Mixer.play_source,
    Mixer.play_source_inner, SrcModel.read, Mixer.check_prefetch_callback,
    hplay, hvol, hlp, hsrc, hreads, hsv, hpre, hmin, hne,
    List.take_left, List.drop_left]

/-- C4 (witness): the amended error-read theorem instantiated on the source
that writes `5` and errs with id 42 into a 3-sample buffer. -/
theorem c4_error_read_keeps_head_silences_tail_witness :
    (c4Mixer.mix [9, 9, 9] 0).errs = [42] ∧
    (c4Mixer.mix [9, 9, 9] 0).events = [.SourceEnded .NoPrefetch] ∧
    (c4Mixer.mix [9, 9, 9] 0).buf = [5, 0, 0] := by
  have h := c4_error_read_keeps_head_silences_tail c4Mixer 0 [5] [9, 9, 9]
    42 scenarioErrSrc rfl rfl rfl rfl rfl rfl rfl (by decide)
  refine ⟨h.1, h.2.1, ?_⟩
  rw [h.2.2]
  decide

/-- C6: when the current source's read comes up short and a prefetched
source is queued whose preferred config is absent or equal to the device
config, the mixer inits it, re-arms the prefetch-notify flag, moves it out
of the prefetched slot, and keeps filling the same buffer from it with no
silence in between (the buffer holds the tail of the old source followed
immediately by the head of the new one); it emits
`SourceEnded(PrefetchSuccessful)`, followed by `SourceEnded(NoPrefetch)`
exactly when the new source also exhausts within the same call, in which
case only the part neither source could fill is silenced; when the new
source fills the rest, it is stored as the current source. -/
theorem c6_prefetch_handoff (m : Mixer) (t : ℚ)
    (p₁ p₂ buf : List ℚ) (s₁ s₂ : SrcModel)
    (hplay : m.shared.controls.play = true)
    (hvol : m.shared.controls.volume = 1)
    (hpf : m.shared.controls.prefetch = 0)
    (hlp : m.last_play = some true)
    (hsrc : m.shared.source = some s₁)
    (hr1 : s₁.reads = [(p₁, none)])
    (hsv1 : s₁.supports_volume = false)
    (hpre : m.shared.prefetched = some s₂)
    (hr2 : s₂.reads = [(p₂, none)])
    (hsv2 : s₂.supports_volume = false)
    (hcfg : s₂.pref = none ∨ s₂.pref = some m.info)
    (hinit : s₂.init_err = none)
    (hlen : p₁.length < buf.length) :
    (m.mix buf t).errs = [] ∧
    (m.mix buf t).mixer.shared.prefetched = none ∧
    (m.mix buf t).mixer.shared.do_prefetch_notify = true ∧
    (m.mix buf t).buf =
      p₁ ++ p₂.take (buf.length - p₁.length) ++
        List.replicate (buf.length - p₁.length -
          min p₂.length (buf.length - p₁.length)) 0 ∧
    (m.mix buf t).events =
      (if buf.length - p₁.length ≤ p₂.length
        then [.SourceEnded .PrefetchSuccessful]
        else [.SourceEnded .PrefetchSuccessful,
          .SourceEnded .NoPrefetch]) ∧
    (buf.length - p₁.length ≤ p₂.length →
      (m.mix buf t).mixer.shared.source = some { s₂ with reads := [] }) := by
  have hmin : min p₁.length buf.length = p₁.length :=
    min_eq_left (le_of_lt hlen)
  have hne : ¬((buf.drop p₁.length).isEmpty = true) := by
    rw [List.isEmpty_iff, List.drop_eq_nil_iff]
    omega
  have hdlen : (buf.drop p₁.length).length = buf.length - p₁.length :=
    List.length_drop _ _
  by_cases hfill : buf.length - p₁.length ≤ p₂.length
  · have hmin2 : min p₂.length (buf.drop p₁.length).length =
        buf.length - p₁.length := by
      rw [hdlen]; exact min_eq_right hfill
    have hminstmt : min p₂.length (buf.length - p₁.length) =
        buf.length - p₁.length := min_eq_right hfill
    have htk : (p₂.take (buf.length - p₁.length)).length =
        buf.length - p₁.length := by
      rw [List.length_take]; exact min_eq_left hfill
    have harith : buf.length ≤ p₁.length + (buf.length - p₁.length) := by
      omega
    have hdrop2 : buf.drop (p₁.length + (buf.length - p₁.length)) = [] := by
      rw [List.drop_eq_nil_iff]; omega
    have htail : ((p₂.take (buf.length - p₁.length) ++
        (buf.drop p₁.length).drop (buf.length - p₁.length)).drop
          (buf.length - p₁.length)).isEmpty = true := by
      rw [List.drop_append_of_le_length (by omega), List.isEmpty_iff]
      have h1 : (buf.drop p₁.length).drop (buf.length - p₁.length) = [] := by
        rw [List.drop_eq_nil_iff]
        omega
      rw [h1]
      simp [List.drop_eq_nil_iff, htk]
    rcases hcfg with hcfg | hcfg <;>
      simp [Mixer.mix, Mixer.try_mix, Mixer.play, Mixer.play_source,
        Mixer.play_source_inner, SrcModel.read, Mixer.check_prefetch_callback,
        hplay, hvol, hpf, hlp, hsrc, hr1, hsv1, hpre, hr2, hsv2, hcfg, hinit,
        hmin, hne, hdlen, hmin2, hminstmt, htail, hfill, harith, hdrop2,
        List.take_left, List.drop_left]
  · have hmin2 : min p₂.length (buf.drop p₁.length).length = p₂.length := by
      rw [hdlen]; exact min_eq_left (by omega)
    have hminstmt : min p₂.length (buf.length - p₁.length) = p₂.length :=
      min_eq_left (by omega)
    have htk2 : p₂.take (buf.length - p₁.length) = p₂ :=
      List.take_of_length_le (by omega)
    have harith2 : ¬(buf.length ≤ p₁.length + p₂.length) := by omega
    have htail : ¬(((p₂.take p₂.length ++
        (buf.drop p₁.length).drop p₂.length).drop p₂.length).isEmpty
          = true) := by
      rw [List.take_length, List.drop_append_of_le_length le_rfl]
      simp [List.isEmpty_iff, List.drop_eq_nil_iff]
      omega
    rcases hcfg with hcfg | hcfg <;>
      simp [Mixer.mix, Mixer.try_mix, Mixer.play, Mixer.play_source,
        Mixer.play_source_inner, SrcModel.read, Mixer.check_prefetch_callback,
        hplay, hvol, hpf, hlp, hsrc, hr1, hsv1, hpre, hr2, hsv2, hcfg, hinit,
        hmin, hne, hdlen, hmin2, hminstmt, htk2, htail, hfill, harith2,
        List.take_length, List.take_left, List.drop_left, Nat.sub_sub]

/-- C6 (witness): the hand-off theorem instantiated on a current source that
ends after one sample (`5`) and a prefetched source `[6,7,8]` with no
preferred config, over a 3-sample buffer: the buffer is `[5, 6, 7]` with no
gap, only `PrefetchSuccessful` is emitted, and the new source lands in the
current slot. -/
theorem c6_prefetch_handoff_witness :
    (c6WitnessMixer.mix [9, 9, 9] 0).errs = [] ∧
    (c6WitnessMixer.mix [9, 9, 9] 0).mixer.shared.prefetched = none ∧
    (c6WitnessMixer.mix [9, 9, 9] 0).mixer.shared.do_prefetch_notify =
      true ∧
    (c6WitnessMixer.mix [9, 9, 9] 0).buf = [5, 6, 7] ∧
    (c6WitnessMixer.mix [9, 9, 9] 0).events =
      [.SourceEnded .PrefetchSuccessful] ∧
    (c6WitnessMixer.mix [9, 9, 9] 0).mixer.shared.source =
      some { scenarioLongSrc with reads := [] } := by
  have h := c6_prefetch_handoff c6WitnessMixer 0 [5] [6, 7, 8] [9, 9, 9]
    scenarioShortSrc scenarioLongSrc rfl rfl rfl rfl rfl rfl rfl rfl rfl
    rfl (Or.inl rfl) rfl (by decide)
  obtain ⟨h1, h2, h3, h4, h5, h6⟩ := h
  refine ⟨h1, h2, h3, ?_, ?_, h6 (by decide)⟩
  · rw [h4]
    decide
  · rw [h5]
    decide

/-! Helper lemmas about the rate converter's shift loop. -/

theorem shiftLoop_index_nonneg (fuel : ℕ) (r : Rate) (h : 0 ≤ r.index) :
    0 ≤ (Rate.shiftLoop fuel r).index := by
  induction fuel generalizing r with
  | zero => exact h
  | succ n ih =>
      simp only [Rate.shiftLoop]
      split_ifs with h1
      · exact ih _ (by dsimp; linarith)
      · exact h

theorem shiftLoop_index_lt_one (fuel : ℕ) (r : Rate)
    (h : r.index < (fuel : ℚ)) : (Rate.shiftLoop fuel r).index < 1 := by
  induction fuel generalizing r with
  | zero =>
      push_cast at h
      simpa [Rate.shiftLoop] using lt_trans h one_pos
  | succ n ih =>
      simp only [Rate.shiftLoop]
      split_ifs with h1
      · refine ih _ ?_
        dsimp
        push_cast at h ⊢
        linarith
      · linarith [not_le.mp h1]

theorem shiftLoop_index_sub (fuel : ℕ) (r : Rate) :
    ∃ k : ℕ, (Rate.shiftLoop fuel r).index = r.index - (k : ℚ) := by
  induction fuel generalizing r with
  | zero => exact ⟨0, by simp [Rate.shiftLoop]⟩
  | succ n ih =>
      simp only [Rate.shiftLoop]
      split_ifs with h1
      · obtain ⟨k, hk⟩ := ih
          { r with
            a := r.b,
            index := r.index - 1,
            b := (listNext r.source).1,
            source := (listNext r.source).2 }
        refine ⟨k + 1, ?_⟩
        rw [hk]
        push_cast
        ring
      · exact ⟨0, by simp⟩

theorem rat_lt_ceil_toNat_add_one (q : ℚ) :
    q < ((Int.toNat ⌈q⌉ : ℕ) : ℚ) + 1 := by
  rcases le_or_lt 0 ⌈q⌉ with h | h
  · have h1 : q ≤ (⌈q⌉ : ℚ) := Int.le_ceil q
    have h2 : ((Int.toNat ⌈q⌉ : ℕ) : ℚ) = ((⌈q⌉ : ℤ) : ℚ) := by
      exact_mod_cast congrArg (fun z : ℤ => (z : ℚ)) (Int.toNat_of_nonneg h)
    linarith
  · have h1 : q ≤ (⌈q⌉ : ℚ) := Int.le_ceil q
    have h2 : ((⌈q⌉ : ℤ) : ℚ) < 0 := by exact_mod_cast h
    have h3 : (0 : ℚ) ≤ ((Int.toNat ⌈q⌉ : ℕ) : ℚ) := by positivity
    linarith

/-- C2 (amended): `Rate::new` starts with `index = 0` and
`ratio = source_rate / target_rate` (not `target_rate / source_rate` as the
claim states; the pass-through condition `ratio = 1` is exactly
`source_rate = target_rate`); each interpolation step on a state with both
lookahead samples present and a nonnegative index emits
`a·(1−index) + b·index`, adds `ratio` to the index, and the shift loop then
subtracts `1` (pulling `b` into `a` and a new `b` from the source) some
whole number of times, leaving the index back in `[0, 1)`. -/
theorem c2_rate_converter_step (rs rt : ℕ) (hrs : 0 < rs) (hrt : 0 < rt)
    (hne : rs ≠ rt) (src : List ℚ) (r : Rate) (av bv : ℚ)
    (hratio : r.ratio = (rs : ℚ) / (rt : ℚ))
    (hi0 : 0 ≤ r.index)
    (ha : r.a = some av) (hb : r.b = some bv) :
    (Rate.new src rs rt).ratio = (rs : ℚ) / (rt : ℚ) ∧
    (Rate.new src rs rt).index = 0 ∧
    ((Rate.new src rs rt).ratio = 1 ↔ rs = rt) ∧
    (r.next).1 = some (av * (1 - r.index) + bv * r.index) ∧
    0 ≤ (r.next).2.index ∧ (r.next).2.index < 1 ∧
    (∃ k : ℕ, (r.next).2.index = r.index + r.ratio - (k : ℚ)) := by
  have hrt0 : ((rt : ℚ)) ≠ 0 := by positivity
  have hiff : ((rs : ℚ) / (rt : ℚ) = 1 ↔ rs = rt) := by
    rw [div_eq_one_iff_eq hrt0]
    exact_mod_cast Iff.rfl
  have hr1 : ¬(r.ratio = 1) := by
    rw [hratio, hiff]
    exact hne
  have hrat0 : 0 ≤ r.ratio := by
    rw [hratio]
    positivity
  have hidx0 : 0 ≤ r.index + r.ratio := by linarith
  refine ⟨rfl, rfl, hiff, ?_, ?_, ?_, ?_⟩
  · simp [Rate.next, hr1, ha, hb, Rate.interpStep]
  · simp only [Rate.next, if_neg hr1, ha, hb, Rate.interpStep]
    exact shiftLoop_index_nonneg _ _ hidx0
  · simp only [Rate.next, if_neg hr1, ha, hb, Rate.interpStep]
    exact shiftLoop_index_lt_one _ _ (by
      push_cast
      have hc := rat_lt_ceil_toNat_add_one (r.index + r.ratio)
      push_cast at hc
      linarith)
  · simp only [Rate.next, if_neg hr1, ha, hb, Rate.interpStep]
    exact shiftLoop_index_sub _ _

/-- C2 (witness): the amended step theorem instantiated for rates 1→2 on a
state with `index = 0` and lookahead samples 2 and 4: the step emits
`2·(1−0) + 4·0` and the index stays in `[0, 1)`. -/
theorem c2_rate_converter_step_witness :
    (Rate.new [] 1 2).ratio = ((1 : ℕ) : ℚ) / ((2 : ℕ) : ℚ) ∧
    (Rate.new [] 1 2).index = 0 ∧
    ((Rate.new [] 1 2).ratio = 1 ↔ (1 : ℕ) = 2) ∧
    (c2WitnessRate.next).1 =
      some (2 * (1 - c2WitnessRate.index) + 4 * c2WitnessRate.index) ∧
    0 ≤ (c2WitnessRate.next).2.index ∧
    (c2WitnessRate.next).2.index < 1 ∧
    (∃ k : ℕ, (c2WitnessRate.next).2.index =
      c2WitnessRate.index + c2WitnessRate.ratio - (k : ℚ)) :=
  c2_rate_converter_step 1 2 (by norm_num) (by norm_num) (by norm_num) []
    c2WitnessRate 2 4 (by norm_num [c2WitnessRate])
    (by norm_num [c2WitnessRate]) rfl rfl

end Raplay
